import Mathlib

/-!
Verification of the jsonresume-theme-latex renderer.

The definitions below are a shallow embedding of the TypeScript module
`lib/index.ts` (version 0.1.2 of the package): the LaTeX markup
primitives (`escape`, `indent`, `useEnvironment`), the phone formatter,
the per-section renderers, and the composition pipeline built by
`makeTheme`.  JavaScript strings are embedded as Lean `String`,
possibly-undefined values as `Option`, and the two external
collaborators (the schema validator and the moment.js date formatter)
are parameters of the pipeline.  A render call either produces the full
document string or fails with an error value (`Except`), mirroring a
thrown JavaScript exception.
-/

namespace JsonResumeLatex

/-- JavaScript truthiness of a possibly-undefined string: `undefined`
and the empty string are falsy, every other string is truthy. -/
def jsTruthy : Option String → Bool
  | none => false
  | some s => s ≠ ""

/-- Template-literal interpolation of a possibly-undefined string:
JavaScript stringifies `undefined` as `"undefined"`. -/
def jstr : Option String → String
  | none => "undefined"
  | some s => s

/-- The JavaScript idiom `x || d`: the default replaces an undefined or
empty string. -/
def orDefault (o : Option String) (d : String) : String :=
  if jsTruthy o then jstr o else d

/-- `Array.prototype.join(sep)` for an array of strings. -/
def jsJoin (sep : String) : List String → String
  | [] => ""
  | [x] => x
  | x :: xs => x ++ sep ++ jsJoin sep xs

/-- `Array.prototype.join(sep)` for an array whose entries may be
`undefined`: `join` renders `undefined` entries as the empty string but
still separates them. -/
def jsJoinOpt (sep : String) (l : List (Option String)) : String :=
  jsJoin sep (l.map (fun o => o.getD ""))

/-- One pass of the global regex replacement `/\n| - /g` used by
`escape`: scanning left to right, a literal newline becomes the forced
line break `" \\ "` and the literal substring `" - "` becomes the
em-dash separator `" --- "`; matches are non-overlapping and the
replacement text is not rescanned. -/
def escapeChars : List Char → List Char
  | [] => []
  | '\n' :: rest => ' ' :: '\\' :: '\\' :: ' ' :: escapeChars rest
  | ' ' :: '-' :: ' ' :: rest => ' ' :: '-' :: '-' :: '-' :: ' ' :: escapeChars rest
  | c :: rest => c :: escapeChars rest

/-- Whether the regex `/\n| - /g` matches anywhere in the input: the
input contains a literal newline or the literal substring `" - "`. -/
def hasEscapeMatch : List Char → Bool
  | [] => false
  | '\n' :: _ => true
  | ' ' :: '-' :: ' ' :: _ => true
  | _ :: rest => hasEscapeMatch rest

/-- Whether the input ends with the two characters `" -"` (the one
prefix that can combine with appended text to form an earlier,
overlapping `" - "` match). -/
def endsWithSpaceDash : List Char → Bool
  | [' ', '-'] => true
  | _ :: rest => endsWithSpaceDash rest
  | [] => false

/-- `escape` from the source: returns `""` for a falsy input and
otherwise applies the two-rule regex replacement.  (The escaper is
deliberately partial: LaTeX reserved characters are left alone.) -/
def escape (str : String) : String :=
  if str = "" then "" else String.mk (escapeChars str.data)

/-- `escape` applied to a possibly-undefined string (the source calls
`escape` on optional fields; `escape(undefined)` takes the falsy branch
and returns `""`). -/
def escapeOpt : Option String → String
  | none => ""
  | some s => escape s

/-- `String.prototype.split` on the newline character: the list of
lines, keeping empty lines (`"".split` gives `[""]`). -/
def splitLines : List Char → List (List Char)
  | [] => [[]]
  | '\n' :: rest => [] :: splitLines rest
  | c :: rest =>
    match splitLines rest with
    | [] => [[c]]
    | l :: ls => (c :: l) :: ls

/-- `indent` from the source: split on newlines, prefix every non-empty
line with two spaces, rejoin. -/
def indent (code : String) : String :=
  jsJoin "\n" ((splitLines code.data).map
    (fun l => if l = [] then "" else "  " ++ String.mk l))

/-- `useEnvironment` from the source: wraps `code`, indented, in
`\begin{env} ... \end{env}`, with each extra argument appended to the
begin line in braces, in the order supplied. -/
def useEnvironment (env : String) (code : String) (args : List String) : String :=
  "\\begin\x7b" ++ env ++ "\x7d" ++ jsJoin "" (args.map (fun arg => "\x7b" ++ arg ++ "\x7d"))
    ++ "\n" ++ indent code ++ "\n\\end\x7b" ++ env ++ "\x7d"

/-- `formatPhone` from the source.  If the string starts with `+` or is
longer than 10 characters, everything except the last 10 characters is
the country code (JavaScript `slice(0, -10)` / `slice(-10)`); the last
10 characters are formatted as `(AAA) BBB--CCCC`; a non-empty country
code is prepended with a space. -/
def formatPhone (phone : String) : String :=
  let n := phone.length
  let withCountry := phone.data.head? = some '+' ∨ n > 10
  let country := if withCountry then String.mk (phone.data.take (n - 10)) else ""
  let local10 := if withCountry then (phone.data.drop (n - 10)) else phone.data
  let formatted := "(" ++ String.mk (local10.take 3) ++ ") "
    ++ String.mk ((local10.drop 3).take 3) ++ "--" ++ String.mk ((local10.drop 6).take 4)
  if country ≠ "" then country ++ " " ++ formatted else formatted

/-- The address block of the `basics` record. -/
structure Location where
  address : Option String := none
  city : Option String := none
  postalCode : Option String := none

/-- The `basics` block of a JSON Resume document (only the fields the
renderer reads). -/
structure Basics where
  name : Option String := none
  label : Option String := none
  email : Option String := none
  phone : Option String := none
  website : Option String := none
  location : Option Location := none
  summary : Option String := none

/-- A work-history record. -/
structure Work where
  name : Option String := none
  url : Option String := none
  description : Option String := none
  position : Option String := none
  location : Option String := none
  startDate : Option String := none
  endDate : Option String := none
  summary : Option String := none
  highlights : Option (List String) := none

/-- A volunteer record. -/
structure Volunteer where
  organization : Option String := none
  url : Option String := none
  description : Option String := none
  position : Option String := none
  location : Option String := none
  startDate : Option String := none
  endDate : Option String := none
  summary : Option String := none
  highlights : Option (List String) := none

/-- An education record. -/
structure Education where
  institution : Option String := none
  studyType : Option String := none
  area : Option String := none
  gpa : Option String := none
  startDate : Option String := none
  endDate : Option String := none
  courses : Option (List String) := none

/-- An award record. -/
structure Award where
  title : Option String := none
  date : Option String := none
  awarder : Option String := none
  summary : Option String := none

/-- A publication record. -/
structure Publication where
  name : Option String := none
  url : Option String := none
  publisher : Option String := none
  releaseDate : Option String := none
  summary : Option String := none

/-- A skill record. -/
structure Skill where
  name : Option String := none
  level : Option String := none

/-- A language record. -/
structure Language where
  language : Option String := none
  fluency : Option String := none

/-- An interest record. -/
structure Interest where
  name : Option String := none

/-- A reference record. -/
structure Reference where
  name : Option String := none
  reference : Option String := none

/-- A project record. -/
structure Project where
  name : Option String := none
  url : Option String := none
  description : Option String := none
  entity : Option String := none
  roles : Option (List String) := none
  startDate : Option String := none
  endDate : Option String := none
  highlights : Option (List String) := none

/-- A JSON Resume document: the `basics` block and the ten optional
section arrays.  Every field may be absent. -/
structure Resume where
  basics : Option Basics := none
  work : Option (List Work) := none
  volunteer : Option (List Volunteer) := none
  education : Option (List Education) := none
  awards : Option (List Award) := none
  publications : Option (List Publication) := none
  skills : Option (List Skill) := none
  languages : Option (List Language) := none
  interests : Option (List Interest) := none
  references : Option (List Reference) := none
  projects : Option (List Project) := none

/-- The `\href{url}{label}` template used for records with a URL. -/
def href (url label : String) : String :=
  "\\href\x7b" ++ url ++ "\x7d\x7b" ++ label ++ "\x7d"

/-- The `${startDate}--${endDate}` date range: the start date always
goes through the moment.js collaborator `fmt` (even when absent); a
falsy end date becomes the literal `Present`. -/
def dateRange (fmt : Option String → String) (startDate endDate : Option String) : String :=
  fmt startDate ++ "--" ++ (if jsTruthy endDate then fmt endDate else "Present")

/-- The body of `work.map(job => ...)` in `renderWork`: one rendered
`job` environment. -/
def formatJob (fmt : Option String → String) (job : Work) : String :=
  let company0 :=
    if jsTruthy job.url then href (jstr job.url) (escape (orDefault job.name "Untitled"))
    else escape (orDefault job.name "Untitled")
  let company :=
    if jsTruthy job.description then company0 ++ " " ++ escapeOpt job.description else company0
  let args := [escape company, escape (orDefault job.position ""),
    dateRange fmt job.startDate job.endDate, escape (orDefault job.location "")]
  let jobInfo :=
    (if jsTruthy job.summary then ["\\jobsummary\x7b" ++ escapeOpt job.summary ++ "\x7d"] else [])
    ++ (match job.highlights with
        | some hl =>
          [useEnvironment "jobhighlights" (jsJoin "\n" (hl.map (fun h => "\\item " ++ escape h))) []]
        | none => [])
  useEnvironment "job" (jsJoin "\n" jobInfo) args

/-- `renderWork` from the source. -/
def renderWork (fmt : Option String → String) : Option (List Work) → String
  | none => "% Work section omitted."
  | some work => useEnvironment "work" (jsJoin "\n" (work.map (formatJob fmt))) []

/-- The body of `volunteer.map(position => ...)` in `renderVolunteer`. -/
def formatPosition (fmt : Option String → String) (position : Volunteer) : String :=
  let organization0 :=
    if jsTruthy position.url then
      href (jstr position.url) (escape (orDefault position.organization "Undisclosed"))
    else escape (orDefault position.organization "Undisclosed")
  let organization :=
    if jsTruthy position.description then organization0 ++ " " ++ escapeOpt position.description
    else organization0
  let args := [escape organization, escape (orDefault position.position ""),
    dateRange fmt position.startDate position.endDate, escapeOpt position.location]
  let positionInfo :=
    (if jsTruthy position.summary then
      ["\\positionsummary\x7b" ++ escapeOpt position.summary ++ "\x7d"] else [])
    ++ (match position.highlights with
        | some hl =>
          [useEnvironment "positionhighlights"
            (jsJoin "\n" (hl.map (fun h => "\\item " ++ escape h))) []]
        | none => [])
  useEnvironment "position" (jsJoin "\n" positionInfo) args

/-- `renderVolunteer` from the source. -/
def renderVolunteer (fmt : Option String → String) : Option (List Volunteer) → String
  | none => "% Volunteer section omitted."
  | some volunteer =>
    useEnvironment "volunteer" (jsJoin "\n" (volunteer.map (formatPosition fmt))) []

/-- The body of `education.map(school => ...)` in `renderEducation`.
The degree template interpolates the possibly-undefined `studyType` and
`area` fields directly, so an absent field appears as `undefined`. -/
def formatSchool (fmt : Option String → String) (school : Education) : String :=
  let degree := jstr school.studyType ++ " (" ++ jstr school.area ++ ")"
  let gpa := if jsTruthy school.gpa then "GPA: " ++ escapeOpt school.gpa else ""
  let args := [escape (orDefault school.institution ""), escape degree,
    dateRange fmt school.startDate school.endDate, escape gpa]
  let schoolInfo :=
    match school.courses with
    | some cs => useEnvironment "courses" (jsJoin "\n" (cs.map (fun c => "\\item " ++ escape c))) []
    | none => ""
  useEnvironment "school" schoolInfo args

/-- `renderEducation` from the source. -/
def renderEducation (fmt : Option String → String) : Option (List Education) → String
  | none => "% Education section omitted."
  | some education =>
    useEnvironment "education" (jsJoin "\n" (education.map (formatSchool fmt))) []

/-- The body of `awards.map(award => ...)` in `renderAwards`. -/
def formatAward (fmt : Option String → String) (award : Award) : String :=
  let args := [escape (orDefault award.title ""), fmt award.date,
    escape (orDefault award.awarder "")]
  let awardInfo :=
    if jsTruthy award.summary then "\\awardsummary\x7b" ++ escapeOpt award.summary ++ "\x7d" else ""
  useEnvironment "award" awardInfo args

/-- `renderAwards` from the source. -/
def renderAwards (fmt : Option String → String) : Option (List Award) → String
  | none => "% Awards section omitted."
  | some awards => useEnvironment "awards" (jsJoin "\n" (awards.map (formatAward fmt))) []

/-- The body of `publications.map(publication => ...)` in
`renderPublications`. -/
def formatPublication (fmt : Option String → String) (publication : Publication) : String :=
  let title :=
    if jsTruthy publication.url then
      href (jstr publication.url) (escape (orDefault publication.name "Untitled"))
    else escape (orDefault publication.name "Untitled")
  let args := [title, escape (orDefault publication.publisher ""), fmt publication.releaseDate]
  let publicationInfo :=
    if jsTruthy publication.summary then
      "\\publicationsummary\x7b" ++ escapeOpt publication.summary ++ "\x7d"
    else ""
  useEnvironment "publication" publicationInfo args

/-- `renderPublications` from the source. -/
def renderPublications (fmt : Option String → String) : Option (List Publication) → String
  | none => "% Publications section omitted."
  | some publications =>
    useEnvironment "publications" (jsJoin "\n" (publications.map (formatPublication fmt))) []

/-- The `content` accumulator of `renderSkills`: `content` starts as the
possibly-undefined `name` and `+=` of the level suffix stringifies an
undefined start as `undefined`. -/
def skillContent (skill : Skill) : Option String :=
  if jsTruthy skill.level then some (jstr skill.name ++ " (" ++ jstr skill.level ++ ")")
  else skill.name

/-- One `\item` line of the skills list. -/
def formatSkill (skill : Skill) : String :=
  "\\item " ++ escapeOpt (skillContent skill)

/-- `renderSkills` from the source. -/
def renderSkills : Option (List Skill) → String
  | none => "% Skills section omitted."
  | some skills => useEnvironment "skills" (jsJoin "\n" (skills.map formatSkill)) []

/-- The `content` accumulator of `renderLanguages`. -/
def languageContent (language : Language) : Option String :=
  if jsTruthy language.fluency then
    some (jstr language.language ++ " (" ++ jstr language.fluency ++ ")")
  else language.language

/-- One `\item` line of the languages list. -/
def formatLanguage (language : Language) : String :=
  "\\item " ++ escapeOpt (languageContent language)

/-- `renderLanguages` from the source. -/
def renderLanguages : Option (List Language) → String
  | none => "% Languages section omitted."
  | some languages => useEnvironment "languages" (jsJoin "\n" (languages.map formatLanguage)) []

/-- One `\item` line of the interests list. -/
def formatInterest (interest : Interest) : String :=
  "\\item " ++ escapeOpt interest.name

/-- `renderInterests` from the source. -/
def renderInterests : Option (List Interest) → String
  | none => "% Interests section omitted."
  | some interests => useEnvironment "interests" (jsJoin "\n" (interests.map formatInterest)) []

/-- One `\reference` line of the references list. -/
def formatReference (reference : Reference) : String :=
  "\\reference\x7b" ++ escape (orDefault reference.name "Undisclosed name") ++ "\x7d "
    ++ escape (orDefault reference.reference "")

/-- `renderReferences` from the source. -/
def renderReferences : Option (List Reference) → String
  | none => "% References section omitted."
  | some references =>
    useEnvironment "references" (jsJoin "\n" (references.map formatReference)) []

/-- The body of `projects.map(project => ...)` in `renderProjects`. -/
def formatProject (fmt : Option String → String) (project : Project) : String :=
  let name :=
    if jsTruthy project.url then
      href (jstr project.url) (escape (orDefault project.name "Untitled"))
    else escape (orDefault project.name "Untitled")
  let roles := match project.roles with | some rs => jsJoin ", " rs | none => ""
  let args := [name, escape roles, dateRange fmt project.startDate project.endDate,
    escape (orDefault project.entity "")]
  let projectInfo :=
    (if jsTruthy project.description then
      ["\\projectsummary\x7b" ++ escapeOpt project.description ++ "\x7d"] else [])
    ++ (match project.highlights with
        | some hl =>
          [useEnvironment "projecthighlights"
            (jsJoin "\n" (hl.map (fun h => "\\item " ++ escape h))) []]
        | none => [])
  useEnvironment "project" (jsJoin "\n" projectInfo) args

/-- `renderProjects` from the source. -/
def renderProjects (fmt : Option String → String) : Option (List Project) → String
  | none => "% Projects section omitted."
  | some projects => useEnvironment "projects" (jsJoin "\n" (projects.map (formatProject fmt))) []

/-- `renderHeader` from the source: a placeholder comment when `basics`
is absent, otherwise the `header` environment collecting the truthy
contact fields in source order (the location line requires address,
city and postal code all truthy; the phone number is stripped to
`+` and digits before formatting). -/
def renderHeader (resume : Resume) : String :=
  match resume.basics with
  | none => "% No header information found."
  | some basics =>
    let contents :=
      (if jsTruthy basics.name then ["\\name\x7b" ++ escapeOpt basics.name ++ "\x7d"] else [])
      ++ (if jsTruthy basics.label then
          ["\\personallabel\x7b" ++ escapeOpt basics.label ++ "\x7d"] else [])
      ++ (match basics.location with
          | some location =>
            if jsTruthy location.address && jsTruthy location.city
                && jsTruthy location.postalCode then
              ["\\location\x7b" ++ escapeOpt location.address ++ " \\\\ "
                ++ escapeOpt location.city ++ ", " ++ escapeOpt location.postalCode ++ "\x7d"]
            else []
          | none => [])
      ++ (if jsTruthy basics.email then ["\\email\x7b" ++ jstr basics.email ++ "\x7d"] else [])
      ++ (if jsTruthy basics.phone then
          let rawPhone :=
            String.mk ((jstr basics.phone).data.filter (fun c => c = '+' ∨ ('0' ≤ c ∧ c ≤ '9')))
          ["\\phone\x7b" ++ rawPhone ++ "\x7d\x7b" ++ formatPhone rawPhone ++ "\x7d"]
          else [])
      ++ (if jsTruthy basics.website then ["\\website\x7b" ++ jstr basics.website ++ "\x7d"] else [])
    useEnvironment "header" (jsJoin "\n" contents) []

/-- `renderSummary` from the source: a falsy summary (absent or empty)
renders as the placeholder comment. -/
def renderSummary (summary : Option String) : String :=
  if jsTruthy summary then "\\summary\x7b" ++ escapeOpt summary ++ "\x7d"
  else "% Summary section omitted."

/-- The value of the dynamic field access `resume[section]` for the ten
section names: a tagged section array.  (Unknown names give
`undefined`, i.e. `none`.) -/
inductive SectionData where
  | work (xs : List Work)
  | volunteer (xs : List Volunteer)
  | education (xs : List Education)
  | awards (xs : List Award)
  | publications (xs : List Publication)
  | skills (xs : List Skill)
  | languages (xs : List Language)
  | interests (xs : List Interest)
  | references (xs : List Reference)
  | projects (xs : List Project)

/-- `resume[section]`: dynamic lookup of a section array by name.
Returns `none` (JavaScript `undefined`) for an absent section and for a
name that is not one of the ten section fields. -/
def getSectionData (resume : Resume) : String → Option SectionData
  | "work" => resume.work.map SectionData.work
  | "volunteer" => resume.volunteer.map SectionData.volunteer
  | "education" => resume.education.map SectionData.education
  | "awards" => resume.awards.map SectionData.awards
  | "publications" => resume.publications.map SectionData.publications
  | "skills" => resume.skills.map SectionData.skills
  | "languages" => resume.languages.map SectionData.languages
  | "interests" => resume.interests.map SectionData.interests
  | "references" => resume.references.map SectionData.references
  | "projects" => resume.projects.map SectionData.projects
  | _ => none

/-- The `RenderOptions` configuration record of the source.  The
`sectionOptions` object is embedded as an association list from section
name to the registered `render` capability (uniformly typed over
`SectionData`, since the source dispatches dynamically). -/
structure RenderOptions where
  documentClass : String
  preamble : String
  sections : List String
  sectionOptions : List (String × (Option SectionData → String))
  renderHeader : Resume → String
  renderSummary : Option String → String

/-- The default `sectionOptions` registry, in source (alphabetical)
order.  Each entry adapts the typed default renderer to the uniform
`SectionData` interface; the pipeline only ever passes it the matching
section array (or `undefined`). -/
def defaultSectionOptions (fmt : Option String → String) :
    List (String × (Option SectionData → String)) :=
  [ ("awards", fun d =>
      renderAwards fmt (match d with | some (SectionData.awards xs) => some xs | _ => none))
  , ("education", fun d =>
      renderEducation fmt (match d with | some (SectionData.education xs) => some xs | _ => none))
  , ("interests", fun d =>
      renderInterests (match d with | some (SectionData.interests xs) => some xs | _ => none))
  , ("languages", fun d =>
      renderLanguages (match d with | some (SectionData.languages xs) => some xs | _ => none))
  , ("projects", fun d =>
      renderProjects fmt (match d with | some (SectionData.projects xs) => some xs | _ => none))
  , ("publications", fun d =>
      renderPublications fmt
        (match d with | some (SectionData.publications xs) => some xs | _ => none))
  , ("references", fun d =>
      renderReferences (match d with | some (SectionData.references xs) => some xs | _ => none))
  , ("skills", fun d =>
      renderSkills (match d with | some (SectionData.skills xs) => some xs | _ => none))
  , ("volunteer", fun d =>
      renderVolunteer fmt (match d with | some (SectionData.volunteer xs) => some xs | _ => none))
  , ("work", fun d =>
      renderWork fmt (match d with | some (SectionData.work xs) => some xs | _ => none))
  ]

/-- The module-level `defaultOptions` object, parameterized by the
moment.js date-formatting collaborator used by the default renderers. -/
def defaultOptions (fmt : Option String → String) : RenderOptions :=
  { documentClass := "article"
  , preamble := ""
  , sections := ["work", "volunteer", "education", "awards", "publications", "skills",
      "languages", "interests", "references", "projects"]
  , sectionOptions := defaultSectionOptions fmt
  , renderHeader := renderHeader
  , renderSummary := renderSummary }

/-- `Partial<RenderOptions>`: a caller-supplied options object in which
every field may be left out. -/
structure PartialRenderOptions where
  documentClass : Option String := none
  preamble : Option String := none
  sections : Option (List String) := none
  sectionOptions : Option (List (String × (Option SectionData → String))) := none
  renderHeader : Option (Resume → String) := none
  renderSummary : Option (Option String → String) := none

/-- The field-by-field effect of `Object.assign(target, source)`: every
field present on `source` overrides the corresponding field of
`target`. -/
def objectAssign (target : RenderOptions) (source : PartialRenderOptions) : RenderOptions :=
  { documentClass := source.documentClass.getD target.documentClass
  , preamble := source.preamble.getD target.preamble
  , sections := source.sections.getD target.sections
  , sectionOptions := source.sectionOptions.getD target.sectionOptions
  , renderHeader := source.renderHeader.getD target.renderHeader
  , renderSummary := source.renderSummary.getD target.renderSummary }

/-- The option-merging step of `makeTheme`, with the module-level
`defaultOptions` binding threaded as explicit state.  The source runs
`Object.assign({ ...defaultOptions }, options)`: the mutation target of
`Object.assign` is the fresh shallow clone `{ ...defaultOptions }`, not
the shared default object, so the call returns the merged `allOptions`
(first component) and leaves the default configuration unchanged
(second component, the state after the call). -/
def makeTheme (defaults : RenderOptions) (options : PartialRenderOptions) :
    RenderOptions × RenderOptions :=
  (objectAssign defaults options, defaults)

/-- A thrown JavaScript error: the explicit `Invalid resume input`
error, or a `TypeError` from a property access on `undefined`. -/
inductive RenderError where
  | invalidInput (msg : String)
  | typeError (msg : String)
deriving DecidableEq

/-- The render closure returned by `makeTheme`, applied to a résumé.
`validate` is the external schema-validation collaborator.  The
closure first validates and throws on a non-empty error list; it then
assembles the document template.  The template reads
`resume.basics.summary` directly, so when `basics` is absent the
property access throws a `TypeError` (modelled as an error value). -/
def renderResume (opts : RenderOptions) (validate : Resume → List String)
    (resume : Resume) : Except RenderError String :=
  let validationErrors := validate resume
  if validationErrors ≠ [] then
    Except.error (RenderError.invalidInput
      ("Invalid resume input: " ++ jsJoin ", " validationErrors))
  else
    match resume.basics with
    | none => Except.error (RenderError.typeError
        "cannot read property summary of undefined")
    | some basics =>
      Except.ok ("\\documentclass\x7b" ++ opts.documentClass ++ "\x7d\n"
        ++ opts.preamble ++ "\n\\begin\x7bdocument\x7d\n"
        ++ opts.renderHeader resume ++ "\n"
        ++ opts.renderSummary basics.summary ++ "\n"
        ++ jsJoinOpt "\n" (opts.sections.map (fun sec =>
            (List.lookup sec opts.sectionOptions).map (fun so => so (getSectionData resume sec))))
        ++ "\n\\end\x7bdocument\x7d\n")

/-- The string carried by a successful render (used to compare outputs
without a decidable equality on the error type). -/
def renderedDoc : Except RenderError String → String
  | Except.ok s => s
  | Except.error _ => ""

/-- Whether a render call succeeded, i.e. did not throw. -/
def renderOk : Except RenderError String → Bool
  | Except.ok _ => true
  | Except.error _ => false

/-- A concrete date-formatting collaborator used for closed test
inputs. -/
def fmt0 : Option String → String := fun _ => "January 1, 2020"

/-- A validation collaborator reporting no errors. -/
def validateOk : Resume → List String := fun _ => []

/-- A résumé whose `basics` block is present (with no fields) and which
has no section arrays. -/
def basicsOnlyResume : Resume := { basics := some {} }

/-- A résumé with no fields at all (in particular no `basics` block). -/
def emptyResume : Resume := {}

/-- The default configuration (with the concrete date collaborator)
whose section list contains the unregistered name `bogus` after
`skills`. -/
def optsWithBogus : RenderOptions :=
  { defaultOptions fmt0 with sections := ["skills", "bogus"] }

/-- The same configuration with the unknown name removed. -/
def optsNoBogus : RenderOptions :=
  { defaultOptions fmt0 with sections := ["skills"] }

/- Sanity checks of the embedding on concrete inputs. -/

example : formatPhone "5555555555" = "(555) 555--5555" := by decide
example : escape "a - b" = "a --- b" := by decide
example : escape "a\nb" = "a \\\\ b" := by decide
example : useEnvironment "work" "" [] = "\\begin\x7bwork\x7d\n\n\\end\x7bwork\x7d" := by decide
example : renderHeader basicsOnlyResume = "\\begin\x7bheader\x7d\n\n\\end\x7bheader\x7d" := by
  decide
example :
    renderResume (defaultOptions fmt0) validateOk emptyResume =
      Except.error (RenderError.typeError "cannot read property summary of undefined") := by
  rfl

/- Helper lemmas about the escaping scanner. -/

/-- The default step of the scanner: a head character that starts no
match is emitted unchanged. -/
theorem escapeChars_cons_default (c : Char) (rest : List Char) (h1 : c ≠ '\n')
    (h2 : ∀ r, c :: rest ≠ ' ' :: '-' :: ' ' :: r) :
    escapeChars (c :: rest) = c :: escapeChars rest := by
  rw [escapeChars.eq_def]
  split
  · simp_all
  · simp_all
  · exact absurd (by assumption) (by simp_all)
  · rename_i heq
    injection heq with hc hr
    rw [hc, hr]

/-- The default step of the match detector. -/
theorem hasEscapeMatch_cons_default (c : Char) (rest : List Char) (h1 : c ≠ '\n')
    (h2 : ∀ r, c :: rest ≠ ' ' :: '-' :: ' ' :: r) :
    hasEscapeMatch (c :: rest) = hasEscapeMatch rest := by
  rw [hasEscapeMatch.eq_def]
  split
  · simp_all
  · simp_all
  · exact absurd (by assumption) (by simp_all)
  · rename_i heq
    injection heq with hc hr
    rw [hr]

/-- Dropping the head preserves the absence of a `" -"` suffix. -/
theorem endsWithSpaceDash_cons (c : Char) (rest : List Char)
    (h : endsWithSpaceDash (c :: rest) = false) : endsWithSpaceDash rest = false := by
  rw [endsWithSpaceDash.eq_def] at h
  split at h
  · exact absurd h (by simp)
  · simp_all
  · simp_all

/-- A character list without any regex match is left unchanged by the
scanner. -/
theorem escapeChars_noop (l : List Char) (h : hasEscapeMatch l = false) :
    escapeChars l = l := by
  induction l using escapeChars.induct with
  | case1 => rfl
  | case2 rest ih => simp [hasEscapeMatch] at h
  | case3 rest ih => simp [hasEscapeMatch] at h
  | case4 c rest h1 h2 ih =>
    have h1' : c ≠ '\n' := fun hc => h1 hc
    have h2' : ∀ r, c :: rest ≠ ' ' :: '-' :: ' ' :: r := by
      intro r hr
      cases hr
      exact h2 r rfl rfl
    rw [escapeChars_cons_default c rest h1' h2']
    rw [hasEscapeMatch_cons_default c rest h1' h2'] at h
    rw [ih h]

/-- The scanner replaces a newline wherever it occurs: no match can
span the newline, so scanning the concatenation splits at it. -/
theorem escapeChars_append_newline (xs : List Char) :
    ∀ ys, escapeChars (xs ++ '\n' :: ys) =
      escapeChars xs ++ ' ' :: '\\' :: '\\' :: ' ' :: escapeChars ys := by
  induction xs using escapeChars.induct with
  | case1 => intro ys; rfl
  | case2 rest ih =>
    intro ys
    simp only [List.cons_append, escapeChars, List.append_eq, ih, List.append_assoc]
  | case3 rest ih =>
    intro ys
    simp only [List.cons_append, escapeChars, List.append_eq, ih, List.append_assoc]
  | case4 c rest h1 h2 ih =>
    intro ys
    have h1' : c ≠ '\n' := fun hc => h1 hc
    have h2' : ∀ r, c :: rest ≠ ' ' :: '-' :: ' ' :: r := by
      intro r hr
      cases hr
      exact h2 r rfl rfl
    have hcomb : ∀ r, c :: (rest ++ '\n' :: ys) ≠ ' ' :: '-' :: ' ' :: r := by
      intro r hr
      injection hr with hc htl
      subst hc
      match rest, htl with
      | [], htl => simp at htl
      | ['-'], htl => simp at htl
      | '-' :: ' ' :: rest', htl => exact h2' rest' rfl
      | a :: b :: rest', htl =>
        simp only [List.cons_append, List.cons.injEq] at htl
        obtain ⟨ha, hb, -⟩ := htl
        subst ha
        subst hb
        exact h2' rest' rfl
    rw [List.cons_append, escapeChars_cons_default c _ h1' hcomb,
      escapeChars_cons_default c rest h1' h2', ih ys, List.cons_append]

/-- The scanner replaces an occurrence of `" - "` appended after text
that does not end in `" -"` (such a suffix would shift the match one
position earlier). -/
theorem escapeChars_append_dash (xs : List Char) :
    endsWithSpaceDash xs = false → ∀ ys, escapeChars (xs ++ ' ' :: '-' :: ' ' :: ys) =
      escapeChars xs ++ ' ' :: '-' :: '-' :: '-' :: ' ' :: escapeChars ys := by
  induction xs using escapeChars.induct with
  | case1 => intro _ ys; rfl
  | case2 rest ih =>
    intro h ys
    have h' := endsWithSpaceDash_cons _ _ h
    simp only [List.cons_append, escapeChars, List.append_eq, ih h', List.append_assoc]
  | case3 rest ih =>
    intro h ys
    have h' := endsWithSpaceDash_cons _ _
      (endsWithSpaceDash_cons _ _ (endsWithSpaceDash_cons _ _ h))
    simp only [List.cons_append, escapeChars, List.append_eq, ih h', List.append_assoc]
  | case4 c rest h1 h2 ih =>
    intro h ys
    have h' := endsWithSpaceDash_cons _ _ h
    have h1' : c ≠ '\n' := fun hc => h1 hc
    have h2' : ∀ r, c :: rest ≠ ' ' :: '-' :: ' ' :: r := by
      intro r hr
      cases hr
      exact h2 r rfl rfl
    have hcomb : ∀ r, c :: (rest ++ ' ' :: '-' :: ' ' :: ys) ≠ ' ' :: '-' :: ' ' :: r := by
      intro r hr
      injection hr with hc htl
      subst hc
      match rest, htl with
      | [], htl => simp at htl
      | ['-'], htl => simp [endsWithSpaceDash] at h
      | '-' :: ' ' :: rest', htl => exact h2' rest' rfl
      | a :: b :: rest', htl =>
        simp only [List.cons_append, List.cons.injEq] at htl
        obtain ⟨ha, hb, -⟩ := htl
        subst ha
        subst hb
        exact h2' rest' rfl
    rw [List.cons_append, escapeChars_cons_default c _ h1' hcomb,
      escapeChars_cons_default c rest h1' h2', ih h' ys, List.cons_append]

/-- `escape` agrees with the scanner on every input (the falsy guard is
redundant for the empty string). -/
theorem escape_eq_mk (s : String) : escape s = String.mk (escapeChars s.data) := by
  unfold escape
  split
  · rename_i h
    subst h
    rfl
  · rfl

/-- String-level reading of `escapeChars_noop`. -/
theorem escape_noop (s : String) (h : hasEscapeMatch s.data = false) : escape s = s := by
  rw [escape_eq_mk, escapeChars_noop s.data h]

/-- String-level reading of `escapeChars_append_newline`. -/
theorem escape_append_newline (s t : String) :
    escape (s ++ "\n" ++ t) = escape s ++ " \\\\ " ++ escape t := by
  apply String.ext
  rw [escape_eq_mk, escape_eq_mk, escape_eq_mk]
  simp only [String.data_append]
  rw [List.append_assoc]
  show escapeChars (s.data ++ '\n' :: t.data) = _
  rw [escapeChars_append_newline]
  simp [List.append_assoc]

/-- String-level reading of `escapeChars_append_dash`. -/
theorem escape_append_dash (s t : String) (h : endsWithSpaceDash s.data = false) :
    escape (s ++ " - " ++ t) = escape s ++ " --- " ++ escape t := by
  apply String.ext
  rw [escape_eq_mk, escape_eq_mk, escape_eq_mk]
  simp only [String.data_append]
  rw [List.append_assoc]
  show escapeChars (s.data ++ ' ' :: '-' :: ' ' :: t.data) = _
  rw [escapeChars_append_dash s.data h]
  simp [List.append_assoc]

/- Helper lemmas about registry lookup in the section pipeline. -/

/-- Appending one entry at the end of an association list only affects
lookups that previously failed. -/
theorem lookup_append_single {α : Type} (s u : String) (l : List (String × α)) (v : α) :
    List.lookup s (l ++ [(u, v)]) =
      ((List.lookup s l).orElse (fun _ => if s == u then some v else none)) := by
  induction l with
  | nil => cases h : s == u <;> simp [List.lookup, h, Option.orElse]
  | cons kv tl ih =>
    obtain ⟨k, w⟩ := kv
    cases h : s == k <;> simp [List.lookup, h, ih, Option.orElse]

/-- Registering a renderer that returns the empty string under a name
yields the same joined entry as leaving the name unregistered: the
`undefined` entry and the empty-string entry both contribute `""`. -/
theorem lookup_with_empty_renderer (so : List (String × (Option SectionData → String)))
    (u : String) (d : Option SectionData) (sec : String) :
    ((List.lookup sec (so ++ [(u, fun _ => "")])).map (fun f => f d)).getD ""
      = ((List.lookup sec so).map (fun f => f d)).getD "" := by
  rw [lookup_append_single]
  cases hl : List.lookup sec so with
  | some w => simp [Option.orElse]
  | none => cases hq : sec == u <;> simp [Option.orElse, hq]

/-- Mapping then defaulting with `""` is determined pointwise. -/
theorem map_getD_congr (secs : List String) (f g : String → Option String)
    (h : ∀ s, (f s).getD "" = (g s).getD "") :
    (secs.map f).map (fun o => o.getD "") = (secs.map g).map (fun o => o.getD "") := by
  induction secs with
  | nil => rfl
  | cons a tl ih => simp only [List.map_cons, h a, ih]

/-- Claim C1: for every résumé and every configuration produced by
`makeTheme`, a non-empty validation error list makes the render call
fail with the error carrying the joined validation messages, and no
document string (not even a partial one) is produced. -/
theorem claim1_validation_gating (d : RenderOptions) (o : PartialRenderOptions)
    (validate : Resume → List String) (r : Resume) (h : validate r ≠ []) :
    renderResume (makeTheme d o).1 validate r =
      Except.error (RenderError.invalidInput
        ("Invalid resume input: " ++ jsJoin ", " (validate r)))
    ∧ ∀ doc, renderResume (makeTheme d o).1 validate r ≠ Except.ok doc := by
  have he : renderResume (makeTheme d o).1 validate r =
      Except.error (RenderError.invalidInput
        ("Invalid resume input: " ++ jsJoin ", " (validate r))) := by
    unfold renderResume
    simp [h]
  refine ⟨he, fun doc hc => ?_⟩
  rw [he] at hc
  exact Except.noConfusion hc

/-- Witness for C1 at a concrete invalid résumé. -/
theorem claim1_witness :
    renderResume (makeTheme (defaultOptions fmt0) {}).1
        (fun _ => ["name required"]) basicsOnlyResume =
      Except.error (RenderError.invalidInput "Invalid resume input: name required") :=
  ((claim1_validation_gating (defaultOptions fmt0) {}
    (fun _ => ["name required"]) basicsOnlyResume (by decide)).1).trans
    (congrArg (fun m => Except.error (RenderError.invalidInput m)) (by decide))

/-- Claim C2: every section renderer maps an absent section to the
single-line placeholder comment naming the omitted section (and, being
total, never throws); none of the placeholders contains a newline. -/
theorem claim2_absent_section_placeholder (fmt : Option String → String) :
    renderWork fmt none = "% Work section omitted."
    ∧ renderVolunteer fmt none = "% Volunteer section omitted."
    ∧ renderEducation fmt none = "% Education section omitted."
    ∧ renderAwards fmt none = "% Awards section omitted."
    ∧ renderPublications fmt none = "% Publications section omitted."
    ∧ renderSkills none = "% Skills section omitted."
    ∧ renderLanguages none = "% Languages section omitted."
    ∧ renderInterests none = "% Interests section omitted."
    ∧ renderReferences none = "% References section omitted."
    ∧ renderProjects fmt none = "% Projects section omitted."
    ∧ ((["% Work section omitted.", "% Volunteer section omitted.",
        "% Education section omitted.", "% Awards section omitted.",
        "% Publications section omitted.", "% Skills section omitted.",
        "% Languages section omitted.", "% Interests section omitted.",
        "% References section omitted.", "% Projects section omitted."] : List String).all
          (fun p => !p.data.contains '\n')) = true :=
  ⟨rfl, rfl, rfl, rfl, rfl, rfl, rfl, rfl, rfl, rfl, by decide⟩

/-- Claim C3: every section renderer maps a present-but-empty array to
its named wrapping environment with an empty body (begin line, empty
line, end line), which differs textually from the omission
placeholder. -/
theorem claim3_empty_section_environment (fmt : Option String → String) :
    (renderWork fmt (some []) = "\\begin\x7bwork\x7d\n\n\\end\x7bwork\x7d"
      ∧ renderWork fmt (some []) ≠ renderWork fmt none)
    ∧ (renderVolunteer fmt (some []) = "\\begin\x7bvolunteer\x7d\n\n\\end\x7bvolunteer\x7d"
      ∧ renderVolunteer fmt (some []) ≠ renderVolunteer fmt none)
    ∧ (renderEducation fmt (some []) = "\\begin\x7beducation\x7d\n\n\\end\x7beducation\x7d"
      ∧ renderEducation fmt (some []) ≠ renderEducation fmt none)
    ∧ (renderAwards fmt (some []) = "\\begin\x7bawards\x7d\n\n\\end\x7bawards\x7d"
      ∧ renderAwards fmt (some []) ≠ renderAwards fmt none)
    ∧ (renderPublications fmt (some []) =
        "\\begin\x7bpublications\x7d\n\n\\end\x7bpublications\x7d"
      ∧ renderPublications fmt (some []) ≠ renderPublications fmt none)
    ∧ (renderSkills (some []) = "\\begin\x7bskills\x7d\n\n\\end\x7bskills\x7d"
      ∧ renderSkills (some []) ≠ renderSkills none)
    ∧ (renderLanguages (some []) = "\\begin\x7blanguages\x7d\n\n\\end\x7blanguages\x7d"
      ∧ renderLanguages (some []) ≠ renderLanguages none)
    ∧ (renderInterests (some []) = "\\begin\x7binterests\x7d\n\n\\end\x7binterests\x7d"
      ∧ renderInterests (some []) ≠ renderInterests none)
    ∧ (renderReferences (some []) = "\\begin\x7breferences\x7d\n\n\\end\x7breferences\x7d"
      ∧ renderReferences (some []) ≠ renderReferences none)
    ∧ (renderProjects fmt (some []) = "\\begin\x7bprojects\x7d\n\n\\end\x7bprojects\x7d"
      ∧ renderProjects fmt (some []) ≠ renderProjects fmt none) := by
  exact ⟨⟨rfl, fun h => absurd
      (show ("\\begin\x7bwork\x7d\n\n\\end\x7bwork\x7d" : String)
        = "% Work section omitted." from h) (by decide)⟩,
    ⟨rfl, fun h => absurd
      (show ("\\begin\x7bvolunteer\x7d\n\n\\end\x7bvolunteer\x7d" : String)
        = "% Volunteer section omitted." from h) (by decide)⟩,
    ⟨rfl, fun h => absurd
      (show ("\\begin\x7beducation\x7d\n\n\\end\x7beducation\x7d" : String)
        = "% Education section omitted." from h) (by decide)⟩,
    ⟨rfl, fun h => absurd
      (show ("\\begin\x7bawards\x7d\n\n\\end\x7bawards\x7d" : String)
        = "% Awards section omitted." from h) (by decide)⟩,
    ⟨rfl, fun h => absurd
      (show ("\\begin\x7bpublications\x7d\n\n\\end\x7bpublications\x7d" : String)
        = "% Publications section omitted." from h) (by decide)⟩,
    ⟨rfl, fun h => absurd
      (show ("\\begin\x7bskills\x7d\n\n\\end\x7bskills\x7d" : String)
        = "% Skills section omitted." from h) (by decide)⟩,
    ⟨rfl, fun h => absurd
      (show ("\\begin\x7blanguages\x7d\n\n\\end\x7blanguages\x7d" : String)
        = "% Languages section omitted." from h) (by decide)⟩,
    ⟨rfl, fun h => absurd
      (show ("\\begin\x7binterests\x7d\n\n\\end\x7binterests\x7d" : String)
        = "% Interests section omitted." from h) (by decide)⟩,
    ⟨rfl, fun h => absurd
      (show ("\\begin\x7breferences\x7d\n\n\\end\x7breferences\x7d" : String)
        = "% References section omitted." from h) (by decide)⟩,
    ⟨rfl, fun h => absurd
      (show ("\\begin\x7bprojects\x7d\n\n\\end\x7bprojects\x7d" : String)
        = "% Projects section omitted." from h) (by decide)⟩⟩

/-- Claim C4 counterexample: the stated value of
`formatPhone "+15555555555"` is wrong — the code keeps the `+` sign in
the extracted country code. -/
theorem claim4_counterexample :
    ¬ (formatPhone "5555555555" = "(555) 555--5555"
      ∧ formatPhone "+15555555555" = "1 (555) 555--5555") := by
  decide

/-- Claim C4 (amended): `formatPhone "5555555555"` is
`"(555) 555--5555"` and `formatPhone "+15555555555"` is
`"+1 (555) 555--5555"` (the country code keeps its `+` prefix). -/
theorem claim4_phone_formatting :
    formatPhone "5555555555" = "(555) 555--5555"
    ∧ formatPhone "+15555555555" = "+1 (555) 555--5555" := by
  decide

/-- Claim C5: contrary to the stated tolerance, a résumé without a
`basics` block makes the pipeline throw a `TypeError` on the
`resume.basics.summary` access (after validation passes), even though
the header and summary renderers themselves do have placeholder
branches for missing data. -/
theorem claim5_missing_basics_throws :
    renderResume (makeTheme (defaultOptions fmt0) {}).1 validateOk emptyResume =
      Except.error (RenderError.typeError "cannot read property summary of undefined")
    ∧ renderHeader emptyResume = "% No header information found."
    ∧ renderSummary none = "% Summary section omitted." :=
  ⟨rfl, rfl, rfl⟩

/-- Claim C6 counterexample: an unregistered section name is not
skipped without a trace — it contributes an `undefined` entry that the
newline join renders as a blank line, so the output differs from the
output with the name removed from the configured list. -/
theorem claim6_counterexample :
    renderResume optsWithBogus validateOk basicsOnlyResume ≠
      renderResume optsNoBogus validateOk basicsOnlyResume := by
  intro h
  exact absurd (congrArg renderedDoc h) (by decide)

/-- Claim C6 (amended): a configured name with no registered renderer
never throws, and behaves exactly as if a renderer returning the empty
string were registered for it: it contributes an empty entry (a blank
line) to the newline-joined section list, and all other configured
sections render as before. -/
theorem claim6_unknown_section_blank (opts : RenderOptions)
    (validate : Resume → List String) (r : Resume) (u : String)
    (hu : List.lookup u opts.sectionOptions = none) :
    (validate r = [] → r.basics.isSome = true →
      renderOk (renderResume opts validate r) = true)
    ∧ renderResume opts validate r =
        renderResume
          { opts with sectionOptions := opts.sectionOptions ++ [(u, fun _ => "")] }
          validate r := by
  constructor
  · intro hv hb
    cases hbasics : r.basics with
    | none => rw [hbasics] at hb; simp at hb
    | some b => simp [renderResume, renderOk, hv, hbasics]
  · cases hval : validate r with
    | cons e es => simp [renderResume, hval]
    | nil =>
      cases hbasics : r.basics with
      | none => simp [renderResume, hval, hbasics]
      | some b =>
        have hJ : jsJoinOpt "\n" (opts.sections.map (fun sec =>
              (List.lookup sec (opts.sectionOptions ++ [(u, fun _ => "")])).map
                (fun so => so (getSectionData r sec)))) =
            jsJoinOpt "\n" (opts.sections.map (fun sec =>
              (List.lookup sec opts.sectionOptions).map
                (fun so => so (getSectionData r sec)))) := by
          unfold jsJoinOpt
          rw [map_getD_congr]
          intro s
          exact lookup_with_empty_renderer opts.sectionOptions u (getSectionData r s) s
        simp [renderResume, hval, hbasics, hJ]

/-- Witness for C6 at the concrete configuration containing the
unregistered name `bogus`. -/
theorem claim6_witness :
    (renderOk (renderResume optsWithBogus validateOk basicsOnlyResume) = true)
    ∧ renderResume optsWithBogus validateOk basicsOnlyResume =
        renderResume
          { optsWithBogus with
            sectionOptions := optsWithBogus.sectionOptions ++ [("bogus", fun _ => "")] }
          validateOk basicsOnlyResume := by
  have h := claim6_unknown_section_blank optsWithBogus validateOk basicsOnlyResume "bogus" rfl
  exact ⟨h.1 rfl rfl, h.2⟩

/-- Claim C7: `makeTheme` merges options into a fresh clone and leaves
the shared default configuration unchanged, with its documented initial
field values; a later `makeTheme` call therefore observes the same
defaults regardless of earlier calls and their overrides. -/
theorem claim7_defaults_not_mutated (fmt : Option String → String)
    (o o1 o2 : PartialRenderOptions) :
    (makeTheme (defaultOptions fmt) o).2 = defaultOptions fmt
    ∧ (defaultOptions fmt).documentClass = "article"
    ∧ (defaultOptions fmt).preamble = ""
    ∧ (defaultOptions fmt).renderHeader = renderHeader
    ∧ (defaultOptions fmt).renderSummary = renderSummary
    ∧ (defaultOptions fmt).sections = ["work", "volunteer", "education", "awards",
        "publications", "skills", "languages", "interests", "references", "projects"]
    ∧ (defaultOptions fmt).sectionOptions = defaultSectionOptions fmt
    ∧ (makeTheme ((makeTheme (defaultOptions fmt) o1).2) o2).1 =
        (makeTheme (defaultOptions fmt) o2).1 :=
  ⟨rfl, rfl, rfl, rfl, rfl, rfl, rfl, rfl⟩

/-- Claim C8: `escape` returns `""` on the falsy input, leaves a string
without newline or `" - "` occurrences (in particular one containing
the LaTeX reserved characters) unchanged, replaces every newline with
the forced line break `" \\ "`, and replaces every (leftmost,
non-overlapping) occurrence of `" - "` with `" --- "`. -/
theorem claim8_escape_behavior :
    escape "" = ""
    ∧ (∀ s : String, hasEscapeMatch s.data = false → escape s = s)
    ∧ (∀ s t : String, escape (s ++ "\n" ++ t) = escape s ++ " \\\\ " ++ escape t)
    ∧ (∀ s t : String, endsWithSpaceDash s.data = false →
        escape (s ++ " - " ++ t) = escape s ++ " --- " ++ escape t)
    ∧ escape "a&b%c_d#e" = "a&b%c_d#e" :=
  ⟨rfl, escape_noop, escape_append_newline, escape_append_dash, by decide⟩

/-- Witness for C8 at concrete strings. -/
theorem claim8_witness :
    escape "ab&c_d" = "ab&c_d"
    ∧ escape ("x" ++ "\n" ++ "y") = escape "x" ++ " \\\\ " ++ escape "y"
    ∧ escape ("a" ++ " - " ++ "b") = escape "a" ++ " --- " ++ escape "b" :=
  ⟨claim8_escape_behavior.2.1 "ab&c_d" (by decide),
   claim8_escape_behavior.2.2.1 "x" "y",
   claim8_escape_behavior.2.2.2.1 "a" "b" (by decide)⟩

/-- Claim C9: every array-valued section renders its records in input
array order — the section body is the newline join of the per-record
fragments in the order of the input list; in particular a work array
`[a, b, c]` renders as the join of the three fragments in that order,
and such a join is the plain left-to-right concatenation. -/
theorem claim9_order_preserved (fmt : Option String → String) (x y z : String)
    (ws : List Work) (a b c : Work) (vs : List Volunteer) (es : List Education)
    (aws : List Award) (pubs : List Publication) (sks : List Skill)
    (lgs : List Language) (ins : List Interest) (rfs : List Reference)
    (pjs : List Project) :
    jsJoin "\n" [x, y, z] = x ++ "\n" ++ y ++ "\n" ++ z
    ∧ renderWork fmt (some ws) =
        useEnvironment "work" (jsJoin "\n" (ws.map (formatJob fmt))) []
    ∧ renderWork fmt (some [a, b, c]) =
        useEnvironment "work"
          (jsJoin "\n" [formatJob fmt a, formatJob fmt b, formatJob fmt c]) []
    ∧ renderVolunteer fmt (some vs) =
        useEnvironment "volunteer" (jsJoin "\n" (vs.map (formatPosition fmt))) []
    ∧ renderEducation fmt (some es) =
        useEnvironment "education" (jsJoin "\n" (es.map (formatSchool fmt))) []
    ∧ renderAwards fmt (some aws) =
        useEnvironment "awards" (jsJoin "\n" (aws.map (formatAward fmt))) []
    ∧ renderPublications fmt (some pubs) =
        useEnvironment "publications" (jsJoin "\n" (pubs.map (formatPublication fmt))) []
    ∧ renderSkills (some sks) =
        useEnvironment "skills" (jsJoin "\n" (sks.map formatSkill)) []
    ∧ renderLanguages (some lgs) =
        useEnvironment "languages" (jsJoin "\n" (lgs.map formatLanguage)) []
    ∧ renderInterests (some ins) =
        useEnvironment "interests" (jsJoin "\n" (ins.map formatInterest)) []
    ∧ renderReferences (some rfs) =
        useEnvironment "references" (jsJoin "\n" (rfs.map formatReference)) []
    ∧ renderProjects fmt (some pjs) =
        useEnvironment "projects" (jsJoin "\n" (pjs.map (formatProject fmt))) [] := by
  refine ⟨?_, rfl, rfl, rfl, rfl, rfl, rfl, rfl, rfl, rfl, rfl, rfl⟩
  have e : jsJoin "\n" [x, y, z] = x ++ "\n" ++ (y ++ "\n" ++ z) := rfl
  rw [e]
  apply String.ext
  simp [List.append_assoc]

/-- Claim C10: an empty-string summary renders as the omission
placeholder, exactly like an absent summary. -/
theorem claim10_empty_summary_is_absent :
    renderSummary (some "") = "% Summary section omitted."
    ∧ renderSummary none = "% Summary section omitted."
    ∧ renderSummary (some "") = renderSummary none :=
  ⟨rfl, rfl, rfl⟩

end JsonResumeLatex
